import Mathlib

/-!
# PresentMon recording controller (`PresentMon/main.cpp`)

A shallow embedding of the session-lifecycle code of `main.cpp`: the two globals
`g_EtwConsumingThread` / `g_StopEtwThreads`, the start and stop helpers, the console
control handler, the window procedure and the message loop of `main`.

Conventions of the embedding.

* The `std::thread` object is represented by its `joinable()` bit.
* Every observable action (entering `StartEtwThreads` / `StopEtwThreads`, launching a
  worker, completing a `join`, posting a message) is appended to a trace, so that
  "how many workers are alive" and "was `StopEtwThreads` called" are read off the run.
* `assert` is the C macro: it checks its condition unless the build defines `NDEBUG`.
  The build mode is a parameter `ndebug` of every function that asserts.
* A failed assertion, a `join()` on a thread that is not joinable (`std::system_error`)
  and a move-assignment onto a joinable thread (`std::terminate`) end the run with a
  `Failure`.
* Construction of the worker thread is taken to succeed and `join()` on a joinable
  thread is taken to complete (the worker observes the flag and exits).
* The handler thread and the dispatcher thread are interleaved at one place only:
  between the evaluation of a guard `if (EtwThreadsRunning())` and the statements it
  guards, where the other thread runs its whole stop.
-/

namespace PresentMon

/-! ## Constants -/

/-- The value of `WM_QUIT` in `windows.h`. -/
def WM_QUIT : Nat := 0x0012

/-- The value of `WM_HOTKEY` in `windows.h`. -/
def WM_HOTKEY : Nat := 0x0312

/-- The value of `WM_USER` in `windows.h`. -/
def WM_USER : Nat := 0x0400

/-- The value of `MOD_NOREPEAT` in `windows.h`. -/
def MOD_NOREPEAT : Nat := 0x4000

/-- The enumerator `HOTKEY_ID = 0x80`. -/
def HOTKEY_ID : Nat := 0x80

/-- The enumerator `WM_STOP_ETW_THREADS = WM_USER + 0`. -/
def WM_STOP_ETW_THREADS : Nat := WM_USER + 0

/-! ## Data -/

/-- Modelled from the spec: the declaration of `CommandLineArgs` (`CommandLine.hpp`) is
not part of the sources at hand.  The fields are the ones `main.cpp` reads or writes;
`mRecordingCount` is the session counter, "a monotonically increasing integer,
initialized to 0", hence a natural number. -/
structure CommandLineArgs where
  mHotkeySupport : Bool
  mHotkeyModifiers : Nat
  mHotkeyVirtualKeyCode : Nat
  mScrollLockIndicator : Bool
  mRecordingCount : Nat
deriving DecidableEq, Repr

/-- The Win32 `MSG` fields used by the program. -/
structure MSG where
  hwnd : Nat
  message : Nat
  wParam : Nat
  lParam : Nat
deriving DecidableEq, Repr

/-- Observable actions, in the order in which the program performs them. -/
inductive Event where
  /-- control entered `StartEtwThreads` -/
  | callStart
  /-- control entered `StopEtwThreads` -/
  | callStop
  /-- the worker `std::thread(EtwConsumingThread, args)` was constructed -/
  | launch (args : CommandLineArgs)
  /-- a call `g_EtwConsumingThread.join()` returned -/
  | join
  /-- a call `PostMessage(hWnd, uMsg, wParam, lParam)` was made -/
  | post (m : MSG)
deriving DecidableEq, Repr

/-- The ways in which a run stops without returning. -/
inductive Failure where
  /-- failed `assert(!EtwThreadsRunning())` in `StartEtwThreads` -/
  | assertStartNotRunning
  /-- failed `assert(EtwThreadsShouldQuit())` in `StartEtwThreads` -/
  | assertStartShouldQuit
  /-- failed `assert(EtwThreadsRunning())` in `StopEtwThreads` -/
  | assertStopRunning
  /-- failed `assert(g_StopEtwThreads == false)` in `StopEtwThreads` -/
  | assertStopFlagClear
  /-- failed `assert(g_StopEtwThreads == false)` in `ConsoleCtrlHandler` -/
  | assertCtrlFlagClear
  /-- failed `assert(!EtwThreadsRunning())` after the message loop of `main` -/
  | assertMainShutDown
  /-- a `join()` on a thread that is not joinable throws `std::system_error` -/
  | joinNotJoinable
  /-- move-assignment onto a joinable `std::thread` calls `std::terminate` -/
  | assignJoinable
deriving DecidableEq, Repr

/-- The mutable state the controller code works on: the globals of `main.cpp`, the
`CommandLineArgs` object owned by `main` (reached through the window user data), and
the trace of actions performed so far. -/
structure State where
  /-- the global `g_hWnd` -/
  g_hWnd : Nat
  /-- the value of `g_EtwConsumingThread.joinable()` -/
  g_EtwConsumingThread : Bool
  /-- the global `g_StopEtwThreads` -/
  g_StopEtwThreads : Bool
  /-- the object `args` of `main` -/
  args : CommandLineArgs
  /-- actions performed so far, oldest first -/
  trace : List Event
deriving DecidableEq, Repr

/-- One result of `GetMessageW(&message, hWnd, 0, 0)`: the return value and the
message it stored. -/
structure GetMessageResult where
  r : Int
  message : MSG
deriving DecidableEq, Repr

/-- How the message loop of `main` ends. -/
inductive LoopOutcome where
  /-- the loop was left through a `break`; `rest` are the results not consumed -/
  | exited (s : State) (rest : List GetMessageResult)
  /-- no further result is supplied: the thread stays blocked in `GetMessageW` -/
  | waiting (s : State)
deriving DecidableEq, Repr

/-- How `main` ends. -/
inductive MainOutcome where
  /-- the function returned `ret`; `s` is the controller state at that point, if the
  message queue had been set up -/
  | returned (ret : Int) (s : Option State)
  /-- the function stays blocked in `GetMessageW` -/
  | waiting (s : State)
deriving DecidableEq, Repr

/-- What the environment supplies to one run of `main`. -/
structure Env where
  /-- result of `ParseCommandLine`: the parsed arguments, or `none` on failure -/
  parse : Option CommandLineArgs
  /-- result of `ElevatePrivilege` -/
  elevate : Bool
  /-- whether `RegisterClassExW` succeeds -/
  registerClass : Bool
  /-- the handle returned by `CreateWindowExW` (0 on failure) -/
  createWindow : Nat
  /-- whether `RegisterHotKey` succeeds -/
  registerHotKey : Bool
  /-- the successive results of `GetMessageW` -/
  gets : List GetMessageResult
deriving DecidableEq, Repr

/-- One sequential step of the controller as seen from outside: a message handed to
`WindowProc`, or a call of `ConsoleCtrlHandler`. -/
inductive Step where
  | windowProc (hWnd uMsg wParam lParam : Nat)
  | consoleCtrl (dwCtrlType : Nat)
deriving DecidableEq, Repr

/-! ## The program -/

/-- The C macro `assert(cond)`: nothing under `NDEBUG`, otherwise the run fails at
`site` when `cond` is false. -/
def assert (ndebug : Bool) (cond : Bool) (site : Failure) : Except Failure Unit :=
  if ndebug then .ok ()
  else if cond then .ok ()
  else .error site

/-- The function `EtwThreadsRunning`: `g_EtwConsumingThread.joinable()`. -/
def EtwThreadsRunning (s : State) : Bool :=
  s.g_EtwConsumingThread

/-- The function `EtwThreadsShouldQuit`: the value of `g_StopEtwThreads`. -/
def EtwThreadsShouldQuit (s : State) : Bool :=
  s.g_StopEtwThreads

/-- The call `g_EtwConsumingThread.join()`. -/
def join (s : State) : Except Failure State :=
  if s.g_EtwConsumingThread then
    .ok { s with g_EtwConsumingThread := false, trace := s.trace ++ [Event.join] }
  else
    .error Failure.joinNotJoinable

/-- The statement `g_EtwConsumingThread = std::thread(EtwConsumingThread, args)`: the
worker is constructed (and runs) first, then move-assigned to the global. -/
def launchThread (s : State) : Except Failure State :=
  let s1 := { s with trace := s.trace ++ [Event.launch s.args] }
  if s1.g_EtwConsumingThread then .error Failure.assignJoinable
  else .ok { s1 with g_EtwConsumingThread := true }

/-- The function `StartEtwThreads(args)`. -/
def StartEtwThreads (ndebug : Bool) (s : State) : Except Failure State := do
  let s0 := { s with trace := s.trace ++ [Event.callStart] }
  assert ndebug (!EtwThreadsRunning s0) Failure.assertStartNotRunning
  assert ndebug (EtwThreadsShouldQuit s0) Failure.assertStartShouldQuit
  let s1 := { s0 with g_StopEtwThreads := false }
  launchThread s1

/-- The function `StopEtwThreads(args)`. -/
def StopEtwThreads (ndebug : Bool) (s : State) : Except Failure State := do
  let s0 := { s with trace := s.trace ++ [Event.callStop] }
  assert ndebug (EtwThreadsRunning s0) Failure.assertStopRunning
  assert ndebug (s0.g_StopEtwThreads == false) Failure.assertStopFlagClear
  let s1 := { s0 with g_StopEtwThreads := true }
  let s2 ← join s1
  .ok { s2 with args := { s2.args with mRecordingCount := s2.args.mRecordingCount + 1 } }

/-- The call `PostMessage(g_hWnd, uMsg, wParam, lParam)`; its result is ignored by
every caller. -/
def PostMessage (uMsg wParam lParam : Nat) (s : State) : State :=
  { s with trace := s.trace ++ [Event.post ⟨s.g_hWnd, uMsg, wParam, lParam⟩] }

/-- The expression `args.mHotkeyModifiers & ~MOD_NOREPEAT` on a 32-bit `UINT`. -/
def toggleLParam (args : CommandLineArgs) : Nat :=
  (args.mHotkeyModifiers % 2 ^ 32) &&& (2 ^ 32 - 1 - MOD_NOREPEAT)

/-- The function `PostToggleRecording(args)`. -/
def PostToggleRecording (s : State) : State :=
  PostMessage WM_HOTKEY HOTKEY_ID (toggleLParam s.args) s

/-- The function `PostStopRecording()`. -/
def PostStopRecording (s : State) : State :=
  PostMessage WM_STOP_ETW_THREADS 0 0 s

/-- The function `PostQuitProcess()`. -/
def PostQuitProcess (s : State) : State :=
  PostMessage WM_QUIT 0 0 s

/-- The function `ConsoleCtrlHandler(dwCtrlType)`; the Boolean is the returned `BOOL`. -/
def ConsoleCtrlHandler (ndebug : Bool) (dwCtrlType : Nat) (s : State) :
    Except Failure (Bool × State) := do
  let _ := dwCtrlType
  let s1 ←
    if EtwThreadsRunning s then do
      assert ndebug (s.g_StopEtwThreads == false) Failure.assertCtrlFlagClear
      join { s with g_StopEtwThreads := true }
    else
      pure s
  let s2 := PostQuitProcess s1
  pure (true, s2)

/-- The function `WindowProc(hWnd, uMsg, wParam, lParam)`.  The value it returns is the
one of `DefWindowProc`, which plays no part in the controller. -/
def WindowProc (ndebug : Bool) (hWnd uMsg wParam lParam : Nat) (s : State) :
    Except Failure State :=
  let _ := hWnd
  let _ := lParam
  if uMsg = WM_HOTKEY then
    if wParam = HOTKEY_ID then
      if EtwThreadsRunning s then StopEtwThreads ndebug s
      else StartEtwThreads ndebug s
    else .ok s
  else if uMsg = WM_STOP_ETW_THREADS then
    if EtwThreadsRunning s then StopEtwThreads ndebug s
    else .ok s
  else .ok s

/-- The call `DispatchMessageW(&message)`: the window procedure of the one window
class of the program is run on the message. -/
def DispatchMessageW (ndebug : Bool) (m : MSG) (s : State) : Except Failure State :=
  WindowProc ndebug m.hwnd m.message m.wParam m.lParam s

/-- The function `CreateMessageQueue(args)`: the window handle, or 0. -/
def CreateMessageQueue (env : Env) (args : CommandLineArgs) : Nat :=
  if !env.registerClass then 0
  else
    let hWnd := env.createWindow
    if hWnd = 0 then 0
    else if args.mHotkeySupport && !env.registerHotKey then 0
    else hWnd

/-- The message loop of `main` (`for (MSG message = {};;) ...`), run on the successive
results of `GetMessageW`. -/
def messageLoop (ndebug : Bool) : List GetMessageResult → State → Except Failure LoopOutcome
  | [], s => .ok (LoopOutcome.waiting s)
  | g :: rest, s =>
    if g.r = 0 then .ok (LoopOutcome.exited s rest)
    else if g.r = -1 then do
      let s1 ← if EtwThreadsRunning s then StopEtwThreads ndebug s else pure s
      .ok (LoopOutcome.exited s1 rest)
    else do
      let s1 ← DispatchMessageW ndebug g.message s
      messageLoop ndebug rest s1

/-- The globals of `main.cpp` as initialised at program start, together with the
parsed arguments. -/
def initialState (args : CommandLineArgs) : State :=
  { g_hWnd := 0, g_EtwConsumingThread := false, g_StopEtwThreads := true,
    args := args, trace := [] }

/-- The function `main`.  `SetConsoleTitle`, `EnableScrollLock` and the registration made
by `SetConsoleCtrlHandler` do not touch the controller state and are left out; calls of
the registered handler arrive on another thread and are the `Step.consoleCtrl` steps
of `run`. -/
def main (ndebug : Bool) (env : Env) : Except Failure MainOutcome :=
  match env.parse with
  | none => .ok (MainOutcome.returned 1 none)
  | some args =>
    if !env.elevate then .ok (MainOutcome.returned 0 none)
    else
      let ret : Int := 0
      let hWnd := CreateMessageQueue env args
      if hWnd = 0 then .ok (MainOutcome.returned 2 none)
      else
        let s0 := { initialState args with g_hWnd := hWnd }
        let s1 := if !args.mHotkeySupport then PostToggleRecording s0 else s0
        match messageLoop ndebug env.gets s1 with
        | .error e => .error e
        | .ok (LoopOutcome.waiting s) => .ok (MainOutcome.waiting s)
        | .ok (LoopOutcome.exited s _) =>
          match assert ndebug (!EtwThreadsRunning s) Failure.assertMainShutDown with
          | .error e => .error e
          | .ok _ => .ok (MainOutcome.returned ret (some s))

/-- One sequential step. -/
def step (ndebug : Bool) : Step → State → Except Failure State
  | Step.windowProc hWnd uMsg wParam lParam, s => WindowProc ndebug hWnd uMsg wParam lParam s
  | Step.consoleCtrl dwCtrlType, s => (ConsoleCtrlHandler ndebug dwCtrlType s).map Prod.snd

/-- A finite sequence of steps run one after another. -/
def run (ndebug : Bool) : List Step → State → Except Failure State
  | [], s => .ok s
  | st :: rest, s => do
    let s1 ← step ndebug st s
    run ndebug rest s1

/-! ## Vocabulary of the claims -/

/-- Controller state IDLE: no worker thread and the cancellation flag set. -/
def IDLE (s : State) : Prop :=
  s.g_EtwConsumingThread = false ∧ s.g_StopEtwThreads = true

/-- Controller state RECORDING: a worker thread and the cancellation flag clear. -/
def RECORDING (s : State) : Prop :=
  s.g_EtwConsumingThread = true ∧ s.g_StopEtwThreads = false

/-- Number of workers launched in a trace. -/
def launches (t : List Event) : Nat :=
  t.countP (fun e => match e with | Event.launch _ => true | _ => false)

/-- Number of completed joins in a trace. -/
def joins (t : List Event) : Nat :=
  t.countP (fun e => e == Event.join)

/-- Live workers at the end of a trace: launched and not yet joined. -/
def liveWorkers (t : List Event) : Int :=
  (launches t : Int) - (joins t : Int)

/-- A Toggle command: a `WM_HOTKEY` message whose `wParam` is `HOTKEY_ID`. -/
def isToggle (m : MSG) : Prop :=
  m.message = WM_HOTKEY ∧ m.wParam = HOTKEY_ID

/-- Toggle commands dispatched by `WindowProc` one after another. -/
def dispatchAll (ndebug : Bool) : List MSG → State → Except Failure State
  | [], s => .ok s
  | m :: rest, s => do
    let s1 ← WindowProc ndebug m.hwnd m.message m.wParam m.lParam s
    dispatchAll ndebug rest s1

/-- Every point of the trace has 0 or 1 live workers. -/
def WorkersBounded (t : List Event) : Prop :=
  ∀ k, 0 ≤ liveWorkers (t.take k) ∧ liveWorkers (t.take k) ≤ 1

/-- Every entry into `StartEtwThreads` happens at a point with no live worker. -/
def StartsWhenIdle (t : List Event) : Prop :=
  ∀ k, t[k]? = some Event.callStart → liveWorkers (t.take k) = 0

/-- The invariant of a run of Toggle commands: the state is IDLE with no live worker or
RECORDING with one, and the trace so far is bounded and starts only when idle. -/
def ToggleInv (s : State) : Prop :=
  (IDLE s ∧ liveWorkers s.trace = 0 ∨ RECORDING s ∧ liveWorkers s.trace = 1) ∧
  WorkersBounded s.trace ∧ StartsWhenIdle s.trace

/-- The statements guarded by `if (EtwThreadsRunning())` in `ConsoleCtrlHandler`:
`assert(g_StopEtwThreads == false); g_StopEtwThreads = true; g_EtwConsumingThread.join();`. -/
def ctrlHandlerStop (ndebug : Bool) (s : State) : Except Failure State := do
  assert ndebug (s.g_StopEtwThreads == false) Failure.assertCtrlFlagClear
  join { s with g_StopEtwThreads := true }

/-- An interleaving of a dispatcher-mediated stop with the direct stop of the handler.
The dispatcher thread, in `WindowProc` on `WM_STOP_ETW_THREADS`, evaluates its guard
`EtwThreadsRunning()`; the handler thread then runs `ConsoleCtrlHandler` from entry to
return; the dispatcher thread then continues in the branch its guard selected, that
is, into `StopEtwThreads(args)` when the guard was true. -/
def dispatcherGuardThenHandler (ndebug : Bool) (dwCtrlType : Nat) (s : State) :
    Except Failure State := do
  let running := EtwThreadsRunning s
  let r ← ConsoleCtrlHandler ndebug dwCtrlType s
  if running then StopEtwThreads ndebug r.2 else pure r.2

/-- The mirrored interleaving.  The handler thread, in `ConsoleCtrlHandler`, evaluates its
guard `EtwThreadsRunning()`; the dispatcher thread then runs `WindowProc` on
`WM_STOP_ETW_THREADS` from entry to return; the handler thread then continues in the
branch its guard selected, posts `WM_QUIT` and returns `TRUE`. -/
def handlerGuardThenDispatcher (ndebug : Bool) (hWnd wParam lParam : Nat) (s : State) :
    Except Failure (Bool × State) := do
  let running := EtwThreadsRunning s
  let s1 ← WindowProc ndebug hWnd WM_STOP_ETW_THREADS wParam lParam s
  let s2 ← if running then ctrlHandlerStop ndebug s1 else pure s1
  pure (true, PostQuitProcess s2)

/-! ## Concrete inputs -/

/-- Arguments of a run without hotkey support and with session counter 0. -/
def args0 : CommandLineArgs :=
  { mHotkeySupport := false, mHotkeyModifiers := 0, mHotkeyVirtualKeyCode := 0,
    mScrollLockIndicator := false, mRecordingCount := 0 }

/-- An IDLE state: the initial globals, with the window handle 1. -/
def idle0 : State :=
  { g_hWnd := 1, g_EtwConsumingThread := false, g_StopEtwThreads := true,
    args := args0, trace := [] }

/-- A RECORDING state with session counter 0: `idle0` after one start. -/
def recording0 : State :=
  { g_hWnd := 1, g_EtwConsumingThread := true, g_StopEtwThreads := false,
    args := args0, trace := [Event.callStart, Event.launch args0] }

/-- The Toggle message posted by `PostToggleRecording` in `idle0`. -/
def toggle0 : MSG := ⟨1, WM_HOTKEY, HOTKEY_ID, 0⟩

/-- A `WM_STOP_ETW_THREADS` message as posted by `PostStopRecording`. -/
def stop0 : MSG := ⟨1, WM_STOP_ETW_THREADS, 0, 0⟩

/-- A `WM_QUIT` message as posted by `PostQuitProcess`. -/
def quit0 : MSG := ⟨1, WM_QUIT, 0, 0⟩

/-- An environment in which start-up succeeds with arguments `args0` and window handle 1,
and `GetMessageW` then yields `gets`. -/
def env0 (gets : List GetMessageResult) : Env :=
  { parse := some args0, elevate := true, registerClass := true, createWindow := 1,
    registerHotKey := true, gets := gets }


/-! ## Evaluation of the operations in IDLE and RECORDING -/

theorem StartEtwThreads_idle (ndebug : Bool) (s : State) (h : IDLE s) :
    StartEtwThreads ndebug s = .ok { s with
      g_EtwConsumingThread := true, g_StopEtwThreads := false,
      trace := s.trace ++ [Event.callStart, Event.launch s.args] } := by
  obtain ⟨h1, h2⟩ := h
  cases ndebug <;>
    simp [StartEtwThreads, launchThread, assert, EtwThreadsRunning, EtwThreadsShouldQuit,
      h1, h2, bind, Except.bind]

theorem StopEtwThreads_recording (ndebug : Bool) (s : State) (h : RECORDING s) :
    StopEtwThreads ndebug s = .ok { s with
      g_EtwConsumingThread := false, g_StopEtwThreads := true,
      args := { s.args with mRecordingCount := s.args.mRecordingCount + 1 },
      trace := s.trace ++ [Event.callStop, Event.join] } := by
  obtain ⟨h1, h2⟩ := h
  cases ndebug <;>
    simp [StopEtwThreads, join, assert, EtwThreadsRunning, h1, h2, bind, Except.bind]

theorem StopEtwThreads_idle (ndebug : Bool) (s : State) (h : IDLE s) :
    StopEtwThreads ndebug s =
      .error (if ndebug then Failure.joinNotJoinable else Failure.assertStopRunning) := by
  obtain ⟨h1, h2⟩ := h
  cases ndebug <;>
    simp [StopEtwThreads, join, assert, EtwThreadsRunning, h1, h2, bind, Except.bind]

theorem ConsoleCtrlHandler_recording (ndebug : Bool) (c : Nat) (s : State) (h : RECORDING s) :
    ConsoleCtrlHandler ndebug c s = .ok (true, { s with
      g_EtwConsumingThread := false, g_StopEtwThreads := true,
      trace := s.trace ++ [Event.join, Event.post ⟨s.g_hWnd, WM_QUIT, 0, 0⟩] }) := by
  obtain ⟨h1, h2⟩ := h
  cases ndebug <;>
    simp [ConsoleCtrlHandler, PostQuitProcess, PostMessage, join, assert, EtwThreadsRunning,
      h1, h2, bind, Except.bind, pure, Except.pure]

theorem ConsoleCtrlHandler_idle (ndebug : Bool) (c : Nat) (s : State) (h : IDLE s) :
    ConsoleCtrlHandler ndebug c s = .ok (true, { s with
      trace := s.trace ++ [Event.post ⟨s.g_hWnd, WM_QUIT, 0, 0⟩] }) := by
  obtain ⟨h1, h2⟩ := h
  cases ndebug <;>
    simp [ConsoleCtrlHandler, PostQuitProcess, PostMessage, join, assert, EtwThreadsRunning,
      h1, h2, bind, Except.bind, pure, Except.pure]


theorem WindowProc_toggle_idle (ndebug : Bool) (hWnd lParam : Nat) (s : State) (h : IDLE s) :
    WindowProc ndebug hWnd WM_HOTKEY HOTKEY_ID lParam s = StartEtwThreads ndebug s := by
  simp [WindowProc, EtwThreadsRunning, h.1]

theorem WindowProc_toggle_recording (ndebug : Bool) (hWnd lParam : Nat) (s : State)
    (h : RECORDING s) :
    WindowProc ndebug hWnd WM_HOTKEY HOTKEY_ID lParam s = StopEtwThreads ndebug s := by
  simp [WindowProc, EtwThreadsRunning, h.1]

theorem WindowProc_stop_recording (ndebug : Bool) (hWnd wParam lParam : Nat) (s : State)
    (h : RECORDING s) :
    WindowProc ndebug hWnd WM_STOP_ETW_THREADS wParam lParam s = StopEtwThreads ndebug s := by
  simp [WindowProc, EtwThreadsRunning, h.1, WM_STOP_ETW_THREADS, WM_HOTKEY, WM_USER]

theorem WindowProc_stop_idle (ndebug : Bool) (hWnd wParam lParam : Nat) (s : State)
    (h : IDLE s) :
    WindowProc ndebug hWnd WM_STOP_ETW_THREADS wParam lParam s = .ok s := by
  simp [WindowProc, EtwThreadsRunning, h.1, WM_STOP_ETW_THREADS, WM_HOTKEY, WM_USER]

/-- Every state is handled by `WindowProc` in one of three ways. -/
theorem WindowProc_cases (ndebug : Bool) (hWnd uMsg wParam lParam : Nat) (s : State) :
    WindowProc ndebug hWnd uMsg wParam lParam s = .ok s ∨
    (s.g_EtwConsumingThread = true ∧
      WindowProc ndebug hWnd uMsg wParam lParam s = StopEtwThreads ndebug s) ∨
    (s.g_EtwConsumingThread = false ∧
      WindowProc ndebug hWnd uMsg wParam lParam s = StartEtwThreads ndebug s) := by
  by_cases hu : uMsg = WM_HOTKEY
  · by_cases hw : wParam = HOTKEY_ID
    · cases hj : s.g_EtwConsumingThread <;> simp [WindowProc, EtwThreadsRunning, hu, hw, hj]
    · simp [WindowProc, hu, hw]
  · by_cases hs : uMsg = WM_STOP_ETW_THREADS
    · have hne : ¬ WM_STOP_ETW_THREADS = WM_HOTKEY := by decide
      subst hs
      cases hj : s.g_EtwConsumingThread <;> simp [WindowProc, EtwThreadsRunning, hne, hj]
    · simp [WindowProc, hu, hs]

/-- The invariant of the controller: the state is IDLE or RECORDING. -/
theorem WindowProc_inv (ndebug : Bool) (hWnd uMsg wParam lParam : Nat) (s : State)
    (h : IDLE s ∨ RECORDING s) :
    ∃ s1, WindowProc ndebug hWnd uMsg wParam lParam s = .ok s1 ∧ (IDLE s1 ∨ RECORDING s1) := by
  rcases WindowProc_cases ndebug hWnd uMsg wParam lParam s with hw | ⟨hj, hw⟩ | ⟨hj, hw⟩
  · exact ⟨s, hw, h⟩
  · have hr : RECORDING s := by
      rcases h with h | h
      · exact absurd hj (by simp [h.1])
      · exact h
    rw [hw, StopEtwThreads_recording ndebug s hr]
    exact ⟨_, rfl, Or.inl ⟨rfl, rfl⟩⟩
  · have hi : IDLE s := by
      rcases h with h | h
      · exact h
      · exact absurd hj (by simp [h.1])
    rw [hw, StartEtwThreads_idle ndebug s hi]
    exact ⟨_, rfl, Or.inr ⟨rfl, rfl⟩⟩

theorem ConsoleCtrlHandler_inv (ndebug : Bool) (c : Nat) (s : State)
    (h : IDLE s ∨ RECORDING s) :
    ∃ s1, ConsoleCtrlHandler ndebug c s = .ok (true, s1) ∧ IDLE s1 := by
  rcases h with h | h
  · rw [ConsoleCtrlHandler_idle ndebug c s h]
    exact ⟨_, rfl, h⟩
  · rw [ConsoleCtrlHandler_recording ndebug c s h]
    exact ⟨_, rfl, ⟨rfl, rfl⟩⟩

theorem step_inv (ndebug : Bool) (st : Step) (s : State) (h : IDLE s ∨ RECORDING s) :
    ∃ s1, step ndebug st s = .ok s1 ∧ (IDLE s1 ∨ RECORDING s1) := by
  cases st with
  | windowProc hWnd uMsg wParam lParam => exact WindowProc_inv ndebug hWnd uMsg wParam lParam s h
  | consoleCtrl c =>
    obtain ⟨s1, h1, h2⟩ := ConsoleCtrlHandler_inv ndebug c s h
    exact ⟨s1, by simp [step, h1, Except.map], Or.inl h2⟩

theorem run_inv (ndebug : Bool) (steps : List Step) :
    ∀ s : State, (IDLE s ∨ RECORDING s) →
      ∃ s1, run ndebug steps s = .ok s1 ∧ (IDLE s1 ∨ RECORDING s1) := by
  induction steps with
  | nil => intro s h; exact ⟨s, rfl, h⟩
  | cons st rest ih =>
    intro s h
    obtain ⟨s1, h1, h2⟩ := step_inv ndebug st s h
    obtain ⟨s2, h3, h4⟩ := ih s1 h2
    exact ⟨s2, by simp [run, h1, h3, bind, Except.bind], h4⟩

/-- C1: in every state reached from an initial state (no worker thread, flag set) by a
finite sequence of `WindowProc` and `ConsoleCtrlHandler` steps, the run has not failed
and `EtwThreadsRunning()` holds exactly when `g_StopEtwThreads` is false. -/
theorem reachable_running_iff_flag_clear (ndebug : Bool) (s0 : State) (steps : List Step)
    (h0 : s0.g_EtwConsumingThread = false ∧ s0.g_StopEtwThreads = true) :
    ∃ s, run ndebug steps s0 = .ok s ∧
      (EtwThreadsRunning s = true ↔ s.g_StopEtwThreads = false) := by
  obtain ⟨s, hs, hinv⟩ := run_inv ndebug steps s0 (Or.inl h0)
  refine ⟨s, hs, ?_⟩
  rcases hinv with h | h <;> simp [EtwThreadsRunning, h.1, h.2]

/-- Witness of C1: three steps from `idle0`. -/
theorem reachable_running_iff_flag_clear_witness :
    ∃ s, run false [Step.windowProc 1 WM_HOTKEY HOTKEY_ID 0, Step.consoleCtrl 0,
        Step.windowProc 1 WM_HOTKEY HOTKEY_ID 0] idle0 = .ok s ∧
      (EtwThreadsRunning s = true ↔ s.g_StopEtwThreads = false) :=
  reachable_running_iff_flag_clear false idle0 _ ⟨rfl, rfl⟩

/-! ## Live workers along a run of Toggle commands -/

theorem liveWorkers_nil : liveWorkers [] = 0 := by
  simp [liveWorkers, launches, joins]

theorem liveWorkers_append (a b : List Event) :
    liveWorkers (a ++ b) = liveWorkers a + liveWorkers b := by
  simp only [liveWorkers, launches, joins, List.countP_append]
  push_cast
  ring

theorem liveWorkers_take_start (a : CommandLineArgs) (j : Nat) :
    liveWorkers ([Event.callStart, Event.launch a].take j) = 0 ∨
    liveWorkers ([Event.callStart, Event.launch a].take j) = 1 := by
  match j with
  | 0 => left; simp [liveWorkers, launches, joins]
  | 1 => left; simp [liveWorkers, launches, joins]
  | n + 2 => right; simp [liveWorkers, launches, joins]

theorem liveWorkers_take_stop (j : Nat) :
    liveWorkers ([Event.callStop, Event.join].take j) = 0 ∨
    liveWorkers ([Event.callStop, Event.join].take j) = -1 := by
  match j with
  | 0 => left; simp [liveWorkers, launches, joins]
  | 1 => left; simp [liveWorkers, launches, joins]
  | n + 2 => right; simp [liveWorkers, launches, joins]

theorem workersBounded_append (t es : List Event) (hb : WorkersBounded t)
    (hes : ∀ j, 0 ≤ liveWorkers t + liveWorkers (es.take j) ∧
      liveWorkers t + liveWorkers (es.take j) ≤ 1) :
    WorkersBounded (t ++ es) := by
  intro k
  rw [List.take_append_eq_append_take, liveWorkers_append]
  by_cases hk : k ≤ t.length
  · have h0 : k - t.length = 0 := Nat.sub_eq_zero_of_le hk
    simpa [h0, liveWorkers_nil] using hb k
  · have ht : t.take k = t := List.take_of_length_le (Nat.le_of_lt (Nat.lt_of_not_le hk))
    rw [ht]
    exact hes _

theorem startsWhenIdle_append (t es : List Event) (hs : StartsWhenIdle t)
    (hes : ∀ j, es[j]? = some Event.callStart → liveWorkers t + liveWorkers (es.take j) = 0) :
    StartsWhenIdle (t ++ es) := by
  intro k hk
  rw [List.take_append_eq_append_take, liveWorkers_append]
  by_cases hlt : k < t.length
  · rw [List.getElem?_append_left hlt] at hk
    have h0 : k - t.length = 0 := Nat.sub_eq_zero_of_le (Nat.le_of_lt hlt)
    simpa [h0, liveWorkers_nil] using hs k hk
  · have hle : t.length ≤ k := Nat.le_of_not_lt hlt
    rw [List.getElem?_append_right hle] at hk
    have ht : t.take k = t := List.take_of_length_le hle
    rw [ht]
    exact hes _ hk

/-- The invariant carried along a run of Toggle commands. -/
theorem toggle_inv (ndebug : Bool) (m : MSG) (hm : isToggle m) (s : State)
    (h : ToggleInv s) :
    ∃ s1, WindowProc ndebug m.hwnd m.message m.wParam m.lParam s = .ok s1 ∧ ToggleInv s1 := by
  obtain ⟨hst, hb, hs⟩ := h
  rw [hm.1, hm.2]
  rcases hst with ⟨hi, hl⟩ | ⟨hr, hl⟩
  · rw [WindowProc_toggle_idle ndebug _ _ s hi, StartEtwThreads_idle ndebug s hi]
    refine ⟨_, rfl, Or.inr ⟨⟨rfl, rfl⟩, ?_⟩, ?_, ?_⟩
    · show liveWorkers (s.trace ++ [Event.callStart, Event.launch s.args]) = 1
      rw [liveWorkers_append, hl]
      simp [liveWorkers, launches, joins]
    · apply workersBounded_append _ _ hb
      intro j
      rw [hl]
      rcases liveWorkers_take_start s.args j with h | h <;> rw [h] <;> decide
    · apply startsWhenIdle_append _ _ hs
      intro j hj
      rw [hl]
      match j, hj with
      | 0, _ => simp [liveWorkers, launches, joins]
      | 1, hj => simp at hj
      | n + 2, hj => simp at hj
  · rw [WindowProc_toggle_recording ndebug _ _ s hr, StopEtwThreads_recording ndebug s hr]
    refine ⟨_, rfl, Or.inl ⟨⟨rfl, rfl⟩, ?_⟩, ?_, ?_⟩
    · show liveWorkers (s.trace ++ [Event.callStop, Event.join]) = 0
      rw [liveWorkers_append, hl]
      simp [liveWorkers, launches, joins]
    · apply workersBounded_append _ _ hb
      intro j
      rw [hl]
      rcases liveWorkers_take_stop j with h | h <;> rw [h] <;> decide
    · apply startsWhenIdle_append _ _ hs
      intro j hj
      match j, hj with
      | 0, hj => simp at hj
      | 1, hj => simp at hj
      | n + 2, hj => simp at hj

theorem dispatchAll_inv (ndebug : Bool) (msgs : List MSG) :
    ∀ s : State, (∀ m ∈ msgs, isToggle m) → ToggleInv s →
      ∃ s1, dispatchAll ndebug msgs s = .ok s1 ∧ ToggleInv s1 := by
  induction msgs with
  | nil => intro s _ h; exact ⟨s, rfl, h⟩
  | cons m rest ih =>
    intro s hm h
    obtain ⟨s1, h1, h2⟩ := toggle_inv ndebug m (hm m (List.mem_cons_self _ _)) s h
    obtain ⟨s2, h3, h4⟩ := ih s1 (fun x hx => hm x (List.mem_cons_of_mem _ hx)) h2
    exact ⟨s2, by simp [dispatchAll, h1, h3, bind, Except.bind], h4⟩

theorem toggleInv_initialState (args : CommandLineArgs) : ToggleInv (initialState args) := by
  refine ⟨Or.inl ⟨⟨rfl, rfl⟩, liveWorkers_nil⟩, ?_, ?_⟩
  · intro k; simp [initialState, liveWorkers_nil]
  · intro k hk; simp [initialState] at hk

/-- C2: for every finite sequence of Toggle commands dispatched by `WindowProc` from the
initial state, after every step the run has not failed (no assertion of
`StartEtwThreads` or `StopEtwThreads` tripped), the number of live workers is 0 or 1 at
every point of the run, and every call of `StartEtwThreads` happens with no live
worker. -/
theorem toggles_at_most_one_worker (ndebug : Bool) (args : CommandLineArgs)
    (msgs : List MSG) (hm : ∀ m ∈ msgs, isToggle m) (j : Nat) :
    ∃ s, dispatchAll ndebug (msgs.take j) (initialState args) = .ok s ∧
      (∀ k, 0 ≤ liveWorkers (s.trace.take k) ∧ liveWorkers (s.trace.take k) ≤ 1) ∧
      (∀ k, s.trace[k]? = some Event.callStart → liveWorkers (s.trace.take k) = 0) := by
  obtain ⟨s, hs, _, hb, hst⟩ := dispatchAll_inv ndebug (msgs.take j) (initialState args)
    (fun m hmem => hm m (List.mem_of_mem_take hmem)) (toggleInv_initialState args)
  exact ⟨s, hs, hb, hst⟩

/-- Witness of C2: three Toggle commands. -/
theorem toggles_at_most_one_worker_witness :
    ∃ s, dispatchAll false ([toggle0, toggle0, toggle0].take 3) (initialState args0) = .ok s ∧
      (∀ k, 0 ≤ liveWorkers (s.trace.take k) ∧ liveWorkers (s.trace.take k) ≤ 1) ∧
      (∀ k, s.trace[k]? = some Event.callStart → liveWorkers (s.trace.take k) = 0) :=
  toggles_at_most_one_worker false args0 [toggle0, toggle0, toggle0]
    (by intro m hm; simp at hm; subst hm; exact ⟨rfl, rfl⟩) 3

/-! ## The message loop -/

theorem messageLoop_error_recording (ndebug : Bool) (s : State) (m : MSG)
    (rest : List GetMessageResult) (h : RECORDING s) :
    messageLoop ndebug (⟨-1, m⟩ :: rest) s = .ok (LoopOutcome.exited { s with
      g_EtwConsumingThread := false, g_StopEtwThreads := true,
      args := { s.args with mRecordingCount := s.args.mRecordingCount + 1 },
      trace := s.trace ++ [Event.callStop, Event.join] } rest) := by
  simp [messageLoop, EtwThreadsRunning, h.1, StopEtwThreads_recording ndebug s h, bind,
    Except.bind]

theorem messageLoop_error_idle (ndebug : Bool) (s : State) (m : MSG)
    (rest : List GetMessageResult) (h : IDLE s) :
    messageLoop ndebug (⟨-1, m⟩ :: rest) s = .ok (LoopOutcome.exited s rest) := by
  simp [messageLoop, EtwThreadsRunning, h.1, bind, Except.bind, pure, Except.pure]

/-- Messages that are dispatched (results other than 0 and -1) keep the controller in
IDLE or RECORDING and hand the remaining results to the next iteration. -/
theorem messageLoop_dispatched (ndebug : Bool) (pre tail : List GetMessageResult) :
    ∀ s : State, (IDLE s ∨ RECORDING s) → (∀ g ∈ pre, g.r ≠ 0 ∧ g.r ≠ -1) →
      ∃ s1, (IDLE s1 ∨ RECORDING s1) ∧
        messageLoop ndebug (pre ++ tail) s = messageLoop ndebug tail s1 := by
  induction pre with
  | nil => intro s h _; exact ⟨s, h, rfl⟩
  | cons g rest ih =>
    intro s h hg
    obtain ⟨h0, h1⟩ := hg g (List.mem_cons_self _ _)
    obtain ⟨s1, hw, hinv⟩ := WindowProc_inv ndebug g.message.hwnd g.message.message
      g.message.wParam g.message.lParam s h
    obtain ⟨s2, hinv2, hl⟩ := ih s1 hinv (fun x hx => hg x (List.mem_cons_of_mem _ hx))
    refine ⟨s2, hinv2, ?_⟩
    rw [← hl]
    simp [messageLoop, h0, h1, DispatchMessageW, hw, bind, Except.bind]

/-- C6: when `GetMessageW` returns -1 the loop stops the controller before it is left.
From RECORDING `StopEtwThreads` is called exactly once (one `callStop`, one `join`),
the controller is IDLE and the session counter one higher at loop exit; from IDLE
nothing changes; in both cases the loop ends at once and the remaining results are
left unconsumed. -/
theorem channel_error_stops_controller (ndebug : Bool) (s : State) (m : MSG)
    (rest : List GetMessageResult) :
    (RECORDING s →
      messageLoop ndebug (⟨-1, m⟩ :: rest) s = .ok (LoopOutcome.exited { s with
        g_EtwConsumingThread := false, g_StopEtwThreads := true,
        args := { s.args with mRecordingCount := s.args.mRecordingCount + 1 },
        trace := s.trace ++ [Event.callStop, Event.join] } rest)) ∧
    (IDLE s → messageLoop ndebug (⟨-1, m⟩ :: rest) s = .ok (LoopOutcome.exited s rest)) :=
  ⟨messageLoop_error_recording ndebug s m rest, messageLoop_error_idle ndebug s m rest⟩

/-- Witness of C6 at `recording0` and `idle0`. -/
theorem channel_error_stops_controller_witness :
    messageLoop false [⟨-1, quit0⟩, ⟨1, toggle0⟩] recording0 =
      .ok (LoopOutcome.exited { recording0 with
        g_EtwConsumingThread := false, g_StopEtwThreads := true,
        args := { args0 with mRecordingCount := 1 },
        trace := [Event.callStart, Event.launch args0, Event.callStop, Event.join] }
        [⟨1, toggle0⟩]) ∧
    messageLoop false [⟨-1, quit0⟩, ⟨1, toggle0⟩] idle0 =
      .ok (LoopOutcome.exited idle0 [⟨1, toggle0⟩]) :=
  ⟨(channel_error_stops_controller false recording0 quit0 [⟨1, toggle0⟩]).1 ⟨rfl, rfl⟩,
   (channel_error_stops_controller false idle0 quit0 [⟨1, toggle0⟩]).2 ⟨rfl, rfl⟩⟩

/-! ## Stopping -/

/-- C3, counterexample: in the IDLE state `idle0` the call `StopEtwThreads` does not
return: with assertions enabled `assert(EtwThreadsRunning())` fails, and under `NDEBUG`
the `join()` on the thread that is not joinable throws. -/
theorem stop_idle_counterexample :
    IDLE idle0 ∧
    StopEtwThreads false idle0 = .error Failure.assertStopRunning ∧
    StopEtwThreads true idle0 = .error Failure.joinNotJoinable :=
  ⟨⟨rfl, rfl⟩, rfl, rfl⟩

/-- C3, amended: in every IDLE state a call of `StopEtwThreads` fails (its assertion
`assert(EtwThreadsRunning())`, or under `NDEBUG` the `join()`), and the no-op on IDLE
is what its guarded call sites provide: `WindowProc` on `WM_STOP_ETW_THREADS` and the
-1 branch of the message loop leave the whole state (thread, flag, session counter)
unchanged without calling it. -/
theorem stop_idle_fails_guard_is_noop (ndebug : Bool) (s : State) (hWnd wParam lParam : Nat)
    (m : MSG) (rest : List GetMessageResult) (h : IDLE s) :
    StopEtwThreads ndebug s =
      .error (if ndebug then Failure.joinNotJoinable else Failure.assertStopRunning) ∧
    WindowProc ndebug hWnd WM_STOP_ETW_THREADS wParam lParam s = .ok s ∧
    messageLoop ndebug (⟨-1, m⟩ :: rest) s = .ok (LoopOutcome.exited s rest) :=
  ⟨StopEtwThreads_idle ndebug s h, WindowProc_stop_idle ndebug hWnd wParam lParam s h,
   messageLoop_error_idle ndebug s m rest h⟩

/-- Witness of the amended C3 at `idle0`. -/
theorem stop_idle_fails_guard_is_noop_witness :
    IDLE idle0 ∧
    StopEtwThreads false idle0 =
      .error (if false then Failure.joinNotJoinable else Failure.assertStopRunning) ∧
    WindowProc false 1 WM_STOP_ETW_THREADS 0 0 idle0 = .ok idle0 ∧
    messageLoop false [⟨-1, quit0⟩] idle0 = .ok (LoopOutcome.exited idle0 []) :=
  ⟨⟨rfl, rfl⟩, stop_idle_fails_guard_is_noop false idle0 1 0 0 quit0 [] ⟨rfl, rfl⟩⟩

/-- C4, counterexample: from the RECORDING state `recording0`, whose session counter is
0, `ConsoleCtrlHandler` returns `TRUE` with the controller IDLE and the session counter
still 0, not 1. -/
theorem console_ctrl_counter_counterexample :
    RECORDING recording0 ∧ recording0.args.mRecordingCount = 0 ∧
    (ConsoleCtrlHandler false 0 recording0).map
      (fun p => (p.1, p.2.g_EtwConsumingThread, p.2.g_StopEtwThreads,
        p.2.args.mRecordingCount)) = .ok (true, false, true, 0) :=
  ⟨⟨rfl, rfl⟩, rfl, rfl⟩

/-- C4, amended: from every RECORDING state with session counter `n`, a call of
`ConsoleCtrlHandler` (any `dwCtrlType`) sets the cancellation flag, joins the worker,
posts `WM_QUIT` and only then returns `TRUE`; the controller is IDLE and `args`, hence
the session counter, is unchanged: it is still `n`. -/
theorem console_ctrl_stops_without_counting (ndebug : Bool) (dwCtrlType n : Nat) (s : State)
    (h : RECORDING s) (hn : s.args.mRecordingCount = n) :
    ∃ s1, ConsoleCtrlHandler ndebug dwCtrlType s = .ok (true, s1) ∧
      s1 = { s with
        g_EtwConsumingThread := false, g_StopEtwThreads := true,
        trace := s.trace ++ [Event.join, Event.post ⟨s.g_hWnd, WM_QUIT, 0, 0⟩] } ∧
      IDLE s1 ∧ s1.args.mRecordingCount = n :=
  ⟨_, ConsoleCtrlHandler_recording ndebug dwCtrlType s h, rfl, ⟨rfl, rfl⟩, hn⟩

/-- Witness of the amended C4 at `recording0`. -/
theorem console_ctrl_stops_without_counting_witness :
    RECORDING recording0 ∧
    ∃ s1, ConsoleCtrlHandler false 2 recording0 = .ok (true, s1) ∧
      s1 = { recording0 with
        g_EtwConsumingThread := false, g_StopEtwThreads := true,
        trace := recording0.trace ++ [Event.join, Event.post ⟨1, WM_QUIT, 0, 0⟩] } ∧
      IDLE s1 ∧ s1.args.mRecordingCount = 0 :=
  ⟨⟨rfl, rfl⟩, console_ctrl_stops_without_counting false 2 0 recording0 ⟨rfl, rfl⟩ rfl⟩

/-- C5, the code at the failing input: start-up without hotkey support, the bootstrap
Toggle is dispatched (the controller is RECORDING), then `GetMessageW` returns 0.  The
loop is left without a stop: with assertions enabled `assert(!EtwThreadsRunning())`
after the loop fails, and under `NDEBUG` `main` returns 0 with the worker still
joinable, the flag clear and the session counter still 0. -/
theorem quit_while_recording_skips_stop :
    main false (env0 [⟨1, toggle0⟩, ⟨0, quit0⟩]) = .error Failure.assertMainShutDown ∧
    main true (env0 [⟨1, toggle0⟩, ⟨0, quit0⟩]) =
      .ok (MainOutcome.returned 0 (some
        { g_hWnd := 1, g_EtwConsumingThread := true, g_StopEtwThreads := false,
          args := args0,
          trace := [Event.post toggle0, Event.callStart, Event.launch args0] })) :=
  ⟨rfl, rfl⟩

/-- The handler is its guard followed by `ctrlHandlerStop`, the post of `WM_QUIT` and
the return of `TRUE`. -/
theorem ConsoleCtrlHandler_eq_guarded (ndebug : Bool) (dwCtrlType : Nat) (s : State) :
    ConsoleCtrlHandler ndebug dwCtrlType s =
      (do
        let s1 ← if EtwThreadsRunning s then ctrlHandlerStop ndebug s else pure s
        pure (true, PostQuitProcess s1)) := by
  cases hj : s.g_EtwConsumingThread <;>
    simp [ConsoleCtrlHandler, ctrlHandlerStop, EtwThreadsRunning, hj]

/-- The dispatcher-mediated stop is its guard followed by `StopEtwThreads`. -/
theorem WindowProc_stop_eq_guarded (ndebug : Bool) (hWnd wParam lParam : Nat) (s : State) :
    WindowProc ndebug hWnd WM_STOP_ETW_THREADS wParam lParam s =
      if EtwThreadsRunning s then StopEtwThreads ndebug s else .ok s := by
  have hne : ¬ WM_STOP_ETW_THREADS = WM_HOTKEY := by decide
  simp [WindowProc, hne]

/-- With nothing to stop, either interleaving is the handler, respectively the
dispatcher's stop followed by the handler, run undisturbed. -/
theorem interleavings_idle (ndebug : Bool) (dwCtrlType hWnd wParam lParam : Nat) (s : State)
    (h : IDLE s) :
    dispatcherGuardThenHandler ndebug dwCtrlType s =
      (ConsoleCtrlHandler ndebug dwCtrlType s).map Prod.snd ∧
    handlerGuardThenDispatcher ndebug hWnd wParam lParam s =
      ConsoleCtrlHandler ndebug dwCtrlType s := by
  constructor
  · rw [ConsoleCtrlHandler_idle ndebug dwCtrlType s h]
    simp [dispatcherGuardThenHandler, EtwThreadsRunning, h.1,
      ConsoleCtrlHandler_idle ndebug dwCtrlType s h, bind, Except.bind, pure, Except.pure,
      Except.map]
  · rw [ConsoleCtrlHandler_idle ndebug dwCtrlType s h]
    simp [handlerGuardThenDispatcher, EtwThreadsRunning, h.1,
      WindowProc_stop_idle ndebug hWnd wParam lParam s h, bind, Except.bind, pure,
      Except.pure, PostQuitProcess, PostMessage]

/-- C7, the code at the failing input: from the RECORDING state `recording0` the two
stops are interleaved at their guards.  When the dispatcher's guard passes and the
handler then runs to completion, the dispatcher enters `StopEtwThreads` with the
worker already joined: `assert(EtwThreadsRunning())` fails, and under `NDEBUG` the
second `join()` throws.  When the handler's guard passes and the dispatcher's stop
then runs to completion, the handler's `assert(g_StopEtwThreads == false)` fails, and
under `NDEBUG` the second `join()` throws.  No such run ends IDLE with the worker
joined once and the session counter at `n + 1`. -/
theorem concurrent_stops_trip_assertions :
    RECORDING recording0 ∧
    dispatcherGuardThenHandler false 0 recording0 = .error Failure.assertStopRunning ∧
    dispatcherGuardThenHandler true 0 recording0 = .error Failure.joinNotJoinable ∧
    handlerGuardThenDispatcher false 1 0 0 recording0 =
      .error Failure.assertCtrlFlagClear ∧
    handlerGuardThenDispatcher true 1 0 0 recording0 = .error Failure.joinNotJoinable :=
  ⟨⟨rfl, rfl⟩, rfl, rfl, rfl, rfl⟩

/-! ## Runs of `main` -/

theorem main_enters_loop (ndebug : Bool) (env : Env) (args : CommandLineArgs)
    (hp : env.parse = some args) (he : env.elevate = true)
    (hq : CreateMessageQueue env args ≠ 0) :
    main ndebug env =
      match messageLoop ndebug env.gets
        (if !args.mHotkeySupport then
          PostToggleRecording { initialState args with g_hWnd := CreateMessageQueue env args }
         else { initialState args with g_hWnd := CreateMessageQueue env args }) with
      | .error e => .error e
      | .ok (LoopOutcome.waiting s) => .ok (MainOutcome.waiting s)
      | .ok (LoopOutcome.exited s _) =>
        match assert ndebug (!EtwThreadsRunning s) Failure.assertMainShutDown with
        | .error e => .error e
        | .ok _ => .ok (MainOutcome.returned 0 (some s)) := by
  simp only [main, hp, he, hq]
  simp

/-- C8: dispatching a Toggle command flips the controller.  `PostToggleRecording` posts
a `WM_HOTKEY` message with `wParam == HOTKEY_ID`; `WindowProc` on such a message takes
IDLE with counter `n` to RECORDING with counter `n`, launching the worker with the
current `args`, and RECORDING with counter `n` to IDLE with counter `n + 1`.  In a run
of `main` without hotkey support and with counter 0, dispatching the bootstrap Toggle
gives RECORDING with counter 0, and dispatching a second Toggle gives IDLE with
counter 1. -/
theorem toggle_flips_controller (ndebug : Bool) (s : State) (hWnd lParam : Nat)
    (env : Env) (args : CommandLineArgs) (r : Int) :
    (PostToggleRecording s).trace =
      s.trace ++ [Event.post ⟨s.g_hWnd, WM_HOTKEY, HOTKEY_ID, toggleLParam s.args⟩] ∧
    (IDLE s →
      WindowProc ndebug hWnd WM_HOTKEY HOTKEY_ID lParam s = .ok { s with
        g_EtwConsumingThread := true, g_StopEtwThreads := false,
        trace := s.trace ++ [Event.callStart, Event.launch s.args] }) ∧
    (RECORDING s →
      WindowProc ndebug hWnd WM_HOTKEY HOTKEY_ID lParam s = .ok { s with
        g_EtwConsumingThread := false, g_StopEtwThreads := true,
        args := { s.args with mRecordingCount := s.args.mRecordingCount + 1 },
        trace := s.trace ++ [Event.callStop, Event.join] }) ∧
    (env.parse = some args → env.elevate = true → CreateMessageQueue env args ≠ 0 →
      args.mHotkeySupport = false → args.mRecordingCount = 0 → r ≠ 0 → r ≠ -1 →
      (env.gets =
          [⟨r, ⟨CreateMessageQueue env args, WM_HOTKEY, HOTKEY_ID, toggleLParam args⟩⟩] →
        main ndebug env = .ok (MainOutcome.waiting
          { g_hWnd := CreateMessageQueue env args,
            g_EtwConsumingThread := true, g_StopEtwThreads := false,
            args := args,
            trace := [Event.post
                ⟨CreateMessageQueue env args, WM_HOTKEY, HOTKEY_ID, toggleLParam args⟩,
              Event.callStart, Event.launch args] })) ∧
      (env.gets =
          [⟨r, ⟨CreateMessageQueue env args, WM_HOTKEY, HOTKEY_ID, toggleLParam args⟩⟩,
           ⟨r, ⟨CreateMessageQueue env args, WM_HOTKEY, HOTKEY_ID, toggleLParam args⟩⟩] →
        main ndebug env = .ok (MainOutcome.waiting
          { g_hWnd := CreateMessageQueue env args,
            g_EtwConsumingThread := false, g_StopEtwThreads := true,
            args := { args with mRecordingCount := 1 },
            trace := [Event.post
                ⟨CreateMessageQueue env args, WM_HOTKEY, HOTKEY_ID, toggleLParam args⟩,
              Event.callStart, Event.launch args, Event.callStop, Event.join] }))) := by
  refine ⟨rfl, ?_, ?_, ?_⟩
  · intro h
    rw [WindowProc_toggle_idle ndebug hWnd lParam s h, StartEtwThreads_idle ndebug s h]
  · intro h
    rw [WindowProc_toggle_recording ndebug hWnd lParam s h, StopEtwThreads_recording ndebug s h]
  · intro hp he hq hh hc h0 h1
    have hstart := StartEtwThreads_idle ndebug
      (PostToggleRecording { initialState args with g_hWnd := CreateMessageQueue env args })
      ⟨rfl, rfl⟩
    have hstop := StopEtwThreads_recording ndebug
      { PostToggleRecording { initialState args with g_hWnd := CreateMessageQueue env args } with
        g_EtwConsumingThread := true, g_StopEtwThreads := false,
        trace := (PostToggleRecording
          { initialState args with g_hWnd := CreateMessageQueue env args }).trace ++
            [Event.callStart, Event.launch args] }
      ⟨rfl, rfl⟩
    constructor
    · intro hg
      rw [main_enters_loop ndebug env args hp he hq, hg]
      simp only [hh, messageLoop, h0, h1, DispatchMessageW, WindowProc, EtwThreadsRunning]
      simp [PostToggleRecording, PostMessage, initialState] at hstart ⊢
      simp [hstart, bind, Except.bind]
    · intro hg
      rw [main_enters_loop ndebug env args hp he hq, hg]
      simp only [hh, messageLoop, h0, h1, DispatchMessageW, WindowProc, EtwThreadsRunning]
      simp [PostToggleRecording, PostMessage, initialState] at hstart hstop ⊢
      simp [hstart, hstop, bind, Except.bind, hc, hh]

/-- Witness of C8: the two implications at `idle0` and `recording0`, and the bootstrap
run of `main` in the environment `env0`. -/
theorem toggle_flips_controller_witness :
    WindowProc false 1 WM_HOTKEY HOTKEY_ID 0 idle0 = .ok recording0 ∧
    WindowProc false 1 WM_HOTKEY HOTKEY_ID 0 recording0 = .ok { recording0 with
      g_EtwConsumingThread := false, g_StopEtwThreads := true,
      args := { args0 with mRecordingCount := 1 },
      trace := [Event.callStart, Event.launch args0, Event.callStop, Event.join] } ∧
    main false (env0 [⟨1, toggle0⟩]) = .ok (MainOutcome.waiting
      { g_hWnd := 1, g_EtwConsumingThread := true, g_StopEtwThreads := false,
        args := args0,
        trace := [Event.post toggle0, Event.callStart, Event.launch args0] }) ∧
    main false (env0 [⟨1, toggle0⟩, ⟨1, toggle0⟩]) = .ok (MainOutcome.waiting
      { g_hWnd := 1, g_EtwConsumingThread := false, g_StopEtwThreads := true,
        args := { args0 with mRecordingCount := 1 },
        trace := [Event.post toggle0, Event.callStart, Event.launch args0,
          Event.callStop, Event.join] }) :=
  ⟨(toggle_flips_controller false idle0 1 0 (env0 []) args0 1).2.1 ⟨rfl, rfl⟩,
   (toggle_flips_controller false recording0 1 0 (env0 []) args0 1).2.2.1 ⟨rfl, rfl⟩,
   ((toggle_flips_controller false idle0 1 0 (env0 [⟨1, toggle0⟩]) args0 1).2.2.2
      rfl rfl (by decide) rfl rfl (by decide) (by decide)).1 rfl,
   ((toggle_flips_controller false idle0 1 0 (env0 [⟨1, toggle0⟩, ⟨1, toggle0⟩]) args0 1).2.2.2
      rfl rfl (by decide) rfl rfl (by decide) (by decide)).2 rfl⟩

/-- C9: dispatching a Stop command stops the controller exactly when it is recording.
`PostStopRecording` posts a `WM_STOP_ETW_THREADS` message; `WindowProc` on such a
message takes RECORDING with counter `n` to IDLE with counter `n + 1` through one call
of `StopEtwThreads`, and leaves an IDLE state entirely unchanged (thread, flag,
session counter and trace: `StopEtwThreads` is not called). -/
theorem stop_command_stops_iff_recording (ndebug : Bool) (s : State)
    (hWnd wParam lParam : Nat) :
    (PostStopRecording s).trace =
      s.trace ++ [Event.post ⟨s.g_hWnd, WM_STOP_ETW_THREADS, 0, 0⟩] ∧
    (RECORDING s →
      WindowProc ndebug hWnd WM_STOP_ETW_THREADS wParam lParam s = .ok { s with
        g_EtwConsumingThread := false, g_StopEtwThreads := true,
        args := { s.args with mRecordingCount := s.args.mRecordingCount + 1 },
        trace := s.trace ++ [Event.callStop, Event.join] }) ∧
    (IDLE s → WindowProc ndebug hWnd WM_STOP_ETW_THREADS wParam lParam s = .ok s) := by
  refine ⟨rfl, ?_, WindowProc_stop_idle ndebug hWnd wParam lParam s⟩
  intro h
  rw [WindowProc_stop_recording ndebug hWnd wParam lParam s h,
    StopEtwThreads_recording ndebug s h]

/-- Witness of C9 at `recording0` and `idle0`. -/
theorem stop_command_stops_iff_recording_witness :
    WindowProc false 1 WM_STOP_ETW_THREADS 0 0 recording0 = .ok { recording0 with
      g_EtwConsumingThread := false, g_StopEtwThreads := true,
      args := { args0 with mRecordingCount := 1 },
      trace := [Event.callStart, Event.launch args0, Event.callStop, Event.join] } ∧
    WindowProc false 1 WM_STOP_ETW_THREADS 0 0 idle0 = .ok idle0 :=
  ⟨(stop_command_stops_iff_recording false recording0 1 0 0).2.1 ⟨rfl, rfl⟩,
   (stop_command_stops_iff_recording false idle0 1 0 0).2.2 ⟨rfl, rfl⟩⟩

/-- C10, counterexample: a run of `main` whose loop ends on -1 (while recording) and a
run whose loop ends on 0 both return exit code 0. -/
theorem channel_error_exit_code_counterexample :
    main false (env0 [⟨1, toggle0⟩, ⟨-1, quit0⟩]) =
      .ok (MainOutcome.returned 0 (some
        { g_hWnd := 1, g_EtwConsumingThread := false, g_StopEtwThreads := true,
          args := { args0 with mRecordingCount := 1 },
          trace := [Event.post toggle0, Event.callStart, Event.launch args0,
            Event.callStop, Event.join] })) ∧
    main false (env0 [⟨1, toggle0⟩, ⟨1, stop0⟩, ⟨0, quit0⟩]) =
      .ok (MainOutcome.returned 0 (some
        { g_hWnd := 1, g_EtwConsumingThread := false, g_StopEtwThreads := true,
          args := { args0 with mRecordingCount := 1 },
          trace := [Event.post toggle0, Event.callStart, Event.launch args0,
            Event.callStop, Event.join] })) :=
  ⟨rfl, rfl⟩

/-- C10, amended: when the message loop of `main` ends because `GetMessageW` returns -1
(after any number of dispatched messages), `main` returns exit code 0 with the
controller IDLE: the same exit code as when the loop ends on Quit. -/
theorem channel_error_exit_code_zero (ndebug : Bool) (env : Env) (args : CommandLineArgs)
    (pre : List GetMessageResult) (m : MSG) (rest : List GetMessageResult)
    (hp : env.parse = some args) (he : env.elevate = true)
    (hq : CreateMessageQueue env args ≠ 0)
    (hpre : ∀ g ∈ pre, g.r ≠ 0 ∧ g.r ≠ -1)
    (hg : env.gets = pre ++ ⟨-1, m⟩ :: rest) :
    ∃ s, main ndebug env = .ok (MainOutcome.returned 0 (some s)) ∧ IDLE s := by
  have hs1 : IDLE (if !args.mHotkeySupport then
      PostToggleRecording { initialState args with g_hWnd := CreateMessageQueue env args }
      else { initialState args with g_hWnd := CreateMessageQueue env args }) := by
    cases args.mHotkeySupport <;> exact ⟨rfl, rfl⟩
  obtain ⟨s2, hinv, hl⟩ := messageLoop_dispatched ndebug pre (⟨-1, m⟩ :: rest) _
    (Or.inl hs1) hpre
  have hloop : ∃ s3, IDLE s3 ∧
      messageLoop ndebug (⟨-1, m⟩ :: rest) s2 = .ok (LoopOutcome.exited s3 rest) := by
    rcases hinv with h | h
    · exact ⟨s2, h, messageLoop_error_idle ndebug s2 m rest h⟩
    · exact ⟨_, ⟨rfl, rfl⟩, messageLoop_error_recording ndebug s2 m rest h⟩
  obtain ⟨s3, hi3, hl3⟩ := hloop
  refine ⟨s3, ?_, hi3⟩
  rw [main_enters_loop ndebug env args hp he hq, hg, hl, hl3]
  cases ndebug <;> simp [assert, EtwThreadsRunning, hi3.1]

/-- Witness of the amended C10 in the environment `env0`. -/
theorem channel_error_exit_code_zero_witness :
    ∃ s, main false (env0 [⟨1, toggle0⟩, ⟨-1, quit0⟩]) =
      .ok (MainOutcome.returned 0 (some s)) ∧ IDLE s :=
  channel_error_exit_code_zero false (env0 [⟨1, toggle0⟩, ⟨-1, quit0⟩]) args0
    [⟨1, toggle0⟩] quit0 [] rfl rfl (by decide)
    (by intro g hg; simp at hg; subst hg; exact ⟨by decide, by decide⟩) rfl

end PresentMon
